import Mathlib

/-!
Verification of the libstorage driver-hosting core against its source.

Each section embeds one part of the Go source as executable Lean
definitions, then (later in the file) proves or refutes the frozen
claims about it.  Machine integers are modelled as Int or Nat, byte
buffers as length-plus-lookup functions, fallible code as Except, and
subprocess or AWS calls as explicit parameters plus a call trace.
-/

namespace MountTable

/-- One row of the hosts mount table, as in api/types (MountInfo).
Numeric fields are Go ints; the remaining fields are strings. -/
structure MountInfo where
  id : Int
  parent : Int
  major : Int
  minor : Int
  root : String
  mountPoint : String
  opts : String
  optional : String
  fstype : String
  source : String
  vfsOpts : String
deriving DecidableEq, Repr

/-- Character class used by the scanner: blank characters inside one line. -/
def isSpc (c : Char) : Bool := c == ' ' || c == '\t'

/-- Drop leading blanks, as every fmt verb except percent-c does. -/
def skipSpc : List Char → List Char
  | [] => []
  | c :: cs => if isSpc c then skipSpc cs else c :: cs

/-- Read a leading run of decimal digits as a Nat; none when the run is empty. -/
def scanDigits (cs : List Char) : Option (Nat × List Char) :=
  let ds := cs.takeWhile Char.isDigit
  if ds.isEmpty then none
  else some (ds.foldl (fun a c => a * 10 + (c.toNat - 48)) 0, cs.dropWhile Char.isDigit)

/-- The percent-d verb of fmt scanning: skip blanks, optional sign, digits. -/
def scanInt (cs : List Char) : Option (Int × List Char) :=
  match skipSpc cs with
  | '-' :: rest => (scanDigits rest).map (fun p => (-(p.1 : Int), p.2))
  | '+' :: rest => (scanDigits rest).map (fun p => ((p.1 : Int), p.2))
  | rest => (scanDigits rest).map (fun p => ((p.1 : Int), p.2))

/-- The percent-s verb of fmt scanning: skip blanks, read a non-empty
run of non-blank characters. -/
def scanTok (cs : List Char) : Option (String × List Char) :=
  let cs := skipSpc cs
  let t := cs.takeWhile (fun c => !(isSpc c))
  if t.isEmpty then none else some (String.mk t, cs.dropWhile (fun c => !(isSpc c)))

/-- A literal colon in the format string must match the next input character. -/
def scanColon : List Char → Option (List Char)
  | ':' :: rest => some rest
  | _ => none

/-- The eight leading fields scanned by
fmt.Sscanf(text, percent-d percent-d percent-d:percent-d then four
percent-s verbs) in parseInfoFile: id, parent, major, minor, root,
mount point, options, optional fields. -/
def sscanfMountPre (cs : List Char) :
    Option (Int × Int × Int × Int × String × String × String × String) := do
  let (idv, cs) ← scanInt cs
  let (par, cs) ← scanInt cs
  let (maj, cs) ← scanInt cs
  let cs ← scanColon cs
  let (minv, cs) ← scanInt cs
  let (root, cs) ← scanTok cs
  let (mnt, cs) ← scanTok cs
  let (opts, cs) ← scanTok cs
  let (optf, _) ← scanTok cs
  pure (idv, par, maj, minv, root, mnt, opts, optf)

/-- Index of the first occurrence of the three-character separator
blank-dash-blank, as strings.Index(text, blank dash blank). -/
def findSep : List Char → Option Nat
  | ' ' :: '-' :: ' ' :: _ => some 0
  | _ :: rest => (findSep rest).map (· + 1)
  | [] => none

/-- The trailer of a row: the text after the first blank-dash-blank
separator.  When the separator is absent, strings.Index yields -1 and
the Go code slices text from index -1+3 = 2, so two characters are
dropped. -/
def trailerOf (cs : List Char) : List Char :=
  match findSep cs with
  | some i => cs.drop (i + 3)
  | none => cs.drop 2

/-- strings.Fields: maximal runs of non-blank characters. -/
def fieldsOf (cs : List Char) : List (List Char) :=
  (cs.splitOnP (fun c => isSpc c)).filter (fun t => !t.isEmpty)

/-- One iteration of the parseInfoFile scanner loop: scan the eight
leading fields, split the trailer after the blank-dash-blank separator,
require at least three trailer fields, and assemble the MountInfo row.
Any failure is an error for the row. -/
def parseLine (text : String) : Except String MountInfo :=
  let cs := text.toList
  match sscanfMountPre cs with
  | none => .error ("Scanning failed: " ++ text)
  | some (idv, par, maj, minv, root, mnt, opts, optf) =>
    let post := fieldsOf (trailerOf cs)
    if post.length < 3 then
      .error ("Error found less than 3 fields post separator in " ++ text)
    else
      .ok ⟨idv, par, maj, minv, root, mnt, opts,
        (if optf = "-" then "" else optf),
        String.mk (post.getD 0 []), String.mk (post.getD 1 []),
        String.intercalate " " ((post.drop 2).map String.mk)⟩

/-- parseInfoFile over the list of input rows: the first failing row
aborts the whole parse with its error; no row is skipped. -/
def parseInfoFile : List String → Except String (List MountInfo)
  | [] => .ok []
  | l :: ls =>
    match parseLine l with
    | .error e => .error e
    | .ok m =>
      match parseInfoFile ls with
      | .error e => .error e
      | .ok ms => .ok (m :: ms)

end MountTable

namespace LinuxOS

/-- A block device as the probe sees it: a byte count and the byte at
each offset (bytes are natural numbers below 256 in practice). -/
structure Device where
  len : Nat
  byte : Nat → Nat

/-- One entry of the signature table in probeFsType. -/
structure ProbeData where
  fsName : String
  magic : List Nat
  offset : Nat

/-- The signature table of probeFsType, in source order: btrfs magic
at offset 0x10040, the two ext4 magic bytes (octal 123 and 357) at
offset 0x438, and the XFSB literal at offset 0. -/
def probes : List ProbeData :=
  [⟨"btrfs", [0x5F, 0x42, 0x48, 0x52, 0x66, 0x53, 0x5F, 0x4D], 0x10040⟩,
   ⟨"ext4", [0o123, 0o357], 0x438⟩,
   ⟨"xfs", [0x58, 0x46, 0x53, 0x42], 0⟩]

/-- The window size computed in probeFsType: the maximum of
offset plus magic length over the table. -/
def maxLen : Nat := probes.foldl (fun m p => max m (p.offset + p.magic.length)) 0

/-- Whether the bytes of the device at the probes offset equal its
magic sequence, as the bytes.Equal test on the read buffer. -/
def magicAt (dev : Device) (p : ProbeData) : Bool :=
  (List.range p.magic.length).all (fun i => dev.byte (p.offset + i) == p.magic.getD i 0)

/-- Failure outcomes of probeFsType: the read returned fewer than
maxLen bytes, or no signature matched (the distinct
errUnknownFileSystem sentinel). -/
inductive ProbeError where
  | readFailed
  | unknownFileSystem
deriving DecidableEq, Repr

/-- probeFsType: read one window of maxLen bytes from the start of the
device (error when fewer bytes are available), then return the first
table entry whose magic matches, else the unknown-file-system sentinel. -/
def probeFsType (dev : Device) : Except ProbeError String :=
  let readLen := min dev.len maxLen
  if readLen ≠ maxLen then .error .readFailed
  else
    match probes.find? (magicAt dev) with
    | some p => .ok p.fsName
    | none => .error .unknownFileSystem

/-- Options of the Format call. -/
structure DeviceFormatOpts where
  newFSType : String
  overwriteFS : Bool

/-- Failure outcomes of Format. -/
inductive FormatError where
  | probeFailed (e : ProbeError)
  | createFailed
  | unsupportedFileSystem
deriving DecidableEq, Repr

/-- The creation branch of Format: entered with the probed type (empty
string when the probe reported unknown file system).  When overwriteFS
is set or no filesystem was detected, the filesystem-specific creation
command runs: mkfs.ext4 -F for ext4, mkfs.xfs -f for xfs, and any other
requested type is the unsupported-file-system error.  The second
component is the list of spawned commands. -/
def formatCreate (deviceName : String) (opts : DeviceFormatOpts)
    (cmdOK : List String → Bool) (fsType : String) :
    Except FormatError Unit × List (List String) :=
  if opts.overwriteFS || !(fsType != "") then
    if opts.newFSType = "ext4" then
      let c := ["mkfs.ext4", "-F", deviceName]
      ((if cmdOK c then .ok () else .error .createFailed), [c])
    else if opts.newFSType = "xfs" then
      let c := ["mkfs.xfs", "-f", deviceName]
      ((if cmdOK c then .ok () else .error .createFailed), [c])
    else (.error .unsupportedFileSystem, [])
  else (.ok (), [])

/-- Format: probe the existing signature first; a probe error other
than the unknown-file-system sentinel aborts; otherwise the detected
type (empty on unknown) feeds the creation branch. -/
def Format (dev : Device) (deviceName : String) (opts : DeviceFormatOpts)
    (cmdOK : List String → Bool) : Except FormatError Unit × List (List String) :=
  match probeFsType dev with
  | .error .readFailed => (.error (.probeFailed .readFailed), [])
  | .error .unknownFileSystem => formatCreate deviceName opts cmdOK ""
  | .ok fs => formatCreate deviceName opts cmdOK fs

/-- Configuration of a spawned subprocess, as the exec.Cmd fields set
by objectivefsMount: program, argument vector after the program name,
standard-input contents, an environment override (none means the
parent environment is inherited unchanged), and the SysProcAttr session
flags. -/
structure Cmd where
  prog : String
  args : List String
  stdinData : Option String
  env : Option (List String)
  setsid : Bool
  setctty : Bool
deriving DecidableEq, Repr

/-- The exec.Cmd built by objectivefsMount: mount -t objectivefs
device target, the passphrase followed by one newline on standard
input, no environment override, Setsid true and Setctty false so the
child is in its own session with no controlling terminal. -/
def objectivefsMountCmd (device target passphrase : String) : Cmd :=
  ⟨"mount", ["-t", "objectivefs", device, target],
   some (passphrase ++ "\n"), none, true, false⟩

/-- Failure outcomes of objectivefsMount. -/
inductive OfsMountError where
  | missingPassphrase
  | runFailed
  | verifyFailed
  | notMounted
deriving DecidableEq, Repr

/-- Modelled from the spec: the helper named mounted, whose definition
is outside the provided sources, re-queries the hosts live mount table
and reports whether the given target path is currently a mount point. -/
def mountedIn (table : List MountTable.MountInfo) (target : String) : Bool :=
  table.any (fun m => m.mountPoint == target)

/-- objectivefsMount: fail when the configured passphrase is empty
before spawning anything; otherwise run the mount command (the Cmd in
the second component), fail when it exits non-zero, then verify by
re-querying the live mount table (queryResult); success only when the
target appears there. -/
def objectivefsMount (passphrase device target : String) (runOK : Bool)
    (queryResult : Except String (List MountTable.MountInfo)) :
    Except OfsMountError Unit × Option Cmd :=
  if passphrase = "" then (.error .missingPassphrase, none)
  else
    let cmd := objectivefsMountCmd device target passphrase
    if !runOK then (.error .runFailed, some cmd)
    else
      match queryResult with
      | .error _ => (.error .verifyFailed, some cmd)
      | .ok table =>
        if mountedIn table target then (.ok (), some cmd)
        else (.error .notMounted, some cmd)

/-- A device carrying the XFSB literal at offset 0 and zero bytes
elsewhere, of exactly the probed window size. -/
def xfsDevice : Device :=
  ⟨maxLen, fun i => if i < 4 then [0x58, 0x46, 0x53, 0x42].getD i 0 else 0⟩

/-- A device of the probed window size whose bytes are all zero: it
matches no registered signature. -/
def zeroDevice : Device := ⟨maxLen, fun _ => 0⟩

end LinuxOS

namespace TaskQueue

/-!
Model of storageService.Init and storageService.TaskExecute.  Init
starts one consumer goroutine that ranges over the unbuffered channel
taskExecQueue and runs execTask(t) for each received task, one at a
time.  TaskExecute spawns a fresh goroutine per task whose only job is
to send the task on that channel.  Consequently the tasks waiting to be
handed over form an unordered set of blocked sender goroutines: which
sender the consumer rendezvouses with next is a scheduler choice, not
the TaskExecute call order.
-/

/-- Observable events: the consumer enters, or returns from, the run
function of the task with the given identifier. -/
inductive Ev where
  | start (id : Nat)
  | finish (id : Nat)
deriving DecidableEq, Repr

/-- State of one Service: the identifiers in TaskExecute call order,
the sender goroutines still blocked on the unbuffered channel, the task
the consumer is currently executing, and the event history. -/
structure SvcState where
  submitted : List Nat
  pending : List Nat
  running : Option Nat
  events : List Ev
deriving DecidableEq, Repr

/-- Scheduler steps: a TaskExecute call spawns a sender for a fresh
task; the idle consumer rendezvouses with any blocked sender and starts
running that task; the consumer finishes the running task.  The recv
step may pick any member of pending: goroutine wake-up order on an
unbuffered channel is not the spawn order. -/
inductive Step : SvcState → SvcState → Prop where
  | submit (s : SvcState) (id : Nat) (h : id ∉ s.submitted) :
      Step s ⟨s.submitted ++ [id], s.pending ++ [id], s.running, s.events⟩
  | recv (s : SvcState) (id : Nat) (hmem : id ∈ s.pending) (hrun : s.running = none) :
      Step s ⟨s.submitted, s.pending.erase id, some id, s.events ++ [.start id]⟩
  | fin (s : SvcState) (id : Nat) (hrun : s.running = some id) :
      Step s ⟨s.submitted, s.pending, none, s.events ++ [.finish id]⟩

/-- The state right after Init: nothing submitted, consumer idle. -/
def initState : SvcState := ⟨[], [], none, []⟩

/-- States the Service can reach from Init. -/
def Reachable (s : SvcState) : Prop := Relation.ReflTransGen Step initState s

/-- Replay an event list against a current-task register: start is
legal only when idle, finish only for the running task.  Returns the
final register, or none when the history shows overlapping execution. -/
def consume : Option Nat → List Ev → Option (Option Nat)
  | r, [] => some r
  | none, .start i :: es => consume (some i) es
  | some i, .finish j :: es => if i = j then consume none es else none
  | none, .finish _ :: _ => none
  | some _, .start _ :: _ => none

/-- No two run functions overlap: whenever the history contains a
start of i somewhere before a start of j, the finish of i lies between
them. -/
def NoOverlap (l : List Ev) : Prop :=
  ∀ l1 i l2 j l3, l = l1 ++ Ev.start i :: (l2 ++ Ev.start j :: l3) → Ev.finish i ∈ l2

/-- The identifiers in order of execution (order of their start events). -/
def startOrder (l : List Ev) : List Nat :=
  l.filterMap (fun e => match e with | .start i => some i | .finish _ => none)

/-- Execution respects submission order: tasks earlier in the
submitted list start no later than tasks submitted after them. -/
def FifoOrdered (s : SvcState) : Prop :=
  ∀ (i j : Nat) (a b : Nat), i < j → s.submitted[i]? = some a → s.submitted[j]? = some b →
    a ∈ startOrder s.events → b ∈ startOrder s.events →
    (startOrder s.events).indexOf a < (startOrder s.events).indexOf b

/-- Intermediate states of the run in which the sender of task 2 wins
the rendezvous race against the sender of task 1. -/
def raceS1 : SvcState := ⟨[1], [1], none, []⟩

def raceS2 : SvcState := ⟨[1, 2], [1, 2], none, []⟩

def raceS3 : SvcState := ⟨[1, 2], [1], some 2, [.start 2]⟩

def raceS4 : SvcState := ⟨[1, 2], [1], none, [.start 2, .finish 2]⟩

def raceS5 : SvcState := ⟨[1, 2], [], some 1, [.start 2, .finish 2, .start 1]⟩

/-- Final state of the race: both tasks ran to completion, task 2
entirely before task 1, although task 1 was submitted first. -/
def raceS6 : SvcState := ⟨[1, 2], [], none, [.start 2, .finish 2, .start 1, .finish 1]⟩

end TaskQueue

/-- strings.TrimLeft: remove leading characters that belong to the
cutset (a set of characters, not a prefix string). -/
def stringsTrimLeft (s cutset : String) : String :=
  String.mk (s.toList.dropWhile (fun c => cutset.toList.contains c))

/-- strings.TrimPrefix: remove the prefix string once, when present. -/
def stringsTrimPre (s pre : String) : String :=
  if pre.isPrefixOf s then String.mk (s.toList.drop pre.length) else s

/-- The relationship between one volume and the instance that may
access it locally; instanceID holds the ID string of the InstanceID
record. -/
structure VolumeAttachment where
  volumeID : String
  instanceID : String
  deviceName : String
  status : String
deriving DecidableEq, Repr

/-- A volume as returned by the storage drivers: name, identifier,
size in bytes, and the attachments slice (none models a nil slice,
which is distinct from an empty one). -/
structure Volume where
  name : String
  id : String
  size : Nat
  attachments : Option (List VolumeAttachment)
deriving DecidableEq, Repr

/-- The local device map taken from the request context: none when no
LocalDevices snapshot is available, otherwise the source-to-mount-point
association list. -/
def LocalDeviceMap := Option (List (String × String))

/-- Placeholder for the snapshot payload: the drivers under study
never construct one. -/
structure Snapshot where
  id : String
deriving DecidableEq, Repr

namespace Ofs

/-!
The objectivefs storage driver (package storage, objectivefs variant).
Subprocess invocations are the backend calls; their outcomes enter as
parameters and the calls made are returned as a trace.
-/

/-- Errors of the objectivefs driver: the two missing-field sentinels
declared at the top of the file, the shared not-implemented sentinel,
and wrapped backend failures. -/
inductive OfsErr where
  | missingVolumeID
  | missingVolumeName
  | notImplemented
  | backend (msg : String)
deriving DecidableEq, Repr

/-- Backend calls the driver can make (subprocess runs). -/
inductive OfsCall where
  | adminCreate (name : String)
deriving DecidableEq, Repr

/-- getVolumeAttachments: reject an empty volume ID, build the device
string by prepending the object-URI scheme s3:// to the volume ID, and
derive the status from the local device map: key present means
Exported and Mounted, key absent means Exported and Unmounted, no map
means Exported.  There is exactly one attachment, whose instance ID is
the configured region. -/
def getVolumeAttachments (region volumeID : String) (ld : LocalDeviceMap) :
    Except OfsErr (List VolumeAttachment) :=
  if volumeID = "" then .error .missingVolumeID
  else
    let dev := "s3://" ++ volumeID
    let status :=
      match ld with
      | some m =>
        if (m.lookup dev).isSome then "Exported and Mounted"
        else "Exported and Unmounted"
      | none => "Exported"
    .ok [⟨volumeID, region, dev, status⟩]

/-- VolumeInspect: an empty ID is the missing-volume-ID error before
anything else; otherwise the volume is assembled locally from the ID
(no backend call), with attachments filled in only when requested. -/
def VolumeInspect (region volumeID : String) (attachments : Bool)
    (ld : LocalDeviceMap) : Except OfsErr Volume :=
  if volumeID = "" then .error .missingVolumeID
  else
    if attachments then
      match getVolumeAttachments region volumeID ld with
      | .error e => .error e
      | .ok atts => .ok ⟨volumeID, volumeID, 0, some atts⟩
    else .ok ⟨volumeID, volumeID, 0, none⟩

/-- VolumeCreate: an empty name is the missing-volume-name error
before any subprocess runs; otherwise the admin create subprocess runs
(runOK tells whether it exited zero) and the result is read back via
VolumeInspect with attachments off.  The second component is the trace
of backend calls. -/
def VolumeCreate (region name : String) (runOK : Bool) :
    Except OfsErr Volume × List OfsCall :=
  if name = "" then (.error .missingVolumeName, [])
  else if runOK then
    (VolumeInspect region name false none, [.adminCreate name])
  else (.error (.backend "objectivefs create failed"), [.adminCreate name])

/-- VolumeCreateFromSnapshot returns the not-implemented sentinel. -/
def VolumeCreateFromSnapshot (snapshotID volumeName : String) : Except OfsErr Volume :=
  .error .notImplemented

/-- VolumeCopy returns the not-implemented sentinel. -/
def VolumeCopy (volumeID volumeName : String) : Except OfsErr Volume :=
  .error .notImplemented

/-- VolumeSnapshot returns the not-implemented sentinel. -/
def VolumeSnapshot (volumeID snapshotName : String) : Except OfsErr Snapshot :=
  .error .notImplemented

/-- Snapshots returns a nil slice and a nil error. -/
def Snapshots : Except OfsErr (Option (List Snapshot)) := .ok none

/-- SnapshotInspect returns a nil pointer and a nil error. -/
def SnapshotInspect (snapshotID : String) : Except OfsErr (Option Snapshot) := .ok none

/-- SnapshotCopy returns a nil pointer and a nil error. -/
def SnapshotCopy (snapshotID snapshotName destinationID : String) :
    Except OfsErr (Option Snapshot) := .ok none

/-- SnapshotRemove returns a nil error. -/
def SnapshotRemove (snapshotID : String) : Except OfsErr Unit := .ok ()

/-- One page of an S3 ListObjects response: the object keys of the
page and the IsTruncated flag. -/
structure S3Page where
  contents : List String
  isTruncated : Bool
deriving DecidableEq, Repr

/-- The S3 operations VolumeRemove performs, as response oracles: the
n-th ListObjects call on a bucket, DeleteObjects, DeleteBucket, and
WaitUntilBucketNotExists. -/
structure S3Backend where
  listObjects : String → Nat → Except String S3Page
  deleteObjects : String → List String → Except String Unit
  deleteBucket : String → Except String Unit
  waitNotExists : String → Except String Unit

/-- The page-draining loop of VolumeRemove.  In the source the loop
condition reads resp.IsTruncated of the response bound OUTSIDE the
loop; the response received inside the body is a new, shadowed
variable, and the ListObjects request parameters are never advanced.
The model therefore keeps the condition (truncated) constant across
iterations, exactly as the code does.  Fuel bounds the number of
iterations; none means the fuel ran out with the loop still going. -/
def drainLoop (b : S3Backend) (bucket : String) (truncated : Bool)
    (acc : List String) (callIdx : Nat) :
    Nat → Option (Except String (List String))
  | 0 => none
  | fuel + 1 =>
    if truncated then
      match b.listObjects bucket callIdx with
      | .error e => some (.error e)
      | .ok page => drainLoop b bucket truncated (acc ++ page.contents) (callIdx + 1) fuel
    else some (.ok acc)

/-- VolumeRemove: list the bucket once, drain further pages while the
first response is marked truncated, then delete the collected objects
(when any), delete the bucket, and wait for the deletion to converge;
each step surfaces its error as-is.  none means the drain loop did not
terminate within the given fuel. -/
def VolumeRemove (b : S3Backend) (volumeID : String) (fuel : Nat) :
    Option (Except String Unit) :=
  match b.listObjects volumeID 0 with
  | .error e => some (.error e)
  | .ok first =>
    match drainLoop b volumeID first.isTruncated first.contents 1 fuel with
    | none => none
    | some (.error e) => some (.error e)
    | some (.ok deletables) =>
      match (if deletables.length > 0 then b.deleteObjects volumeID deletables else .ok ()) with
      | .error e => some (.error e)
      | .ok _ =>
        match b.deleteBucket volumeID with
        | .error e => some (.error e)
        | .ok _ =>
          match b.waitNotExists volumeID with
          | .error e => some (.error e)
          | .ok _ => some (.ok ())

/-- A backend whose ListObjects always succeeds with one key and the
truncated flag set: more keys exist than one page holds. -/
def truncatedBackend : S3Backend :=
  ⟨fun _ _ => .ok ⟨["key-0"], true⟩, fun _ _ => .ok (), fun _ => .ok (), fun _ => .ok ()⟩

end Ofs

namespace Efs

/-!
The efs storage driver (package storage, efs variant).  AWS EFS calls
enter as response oracles and the calls made are returned as a trace.
-/

/-- An AWS EFS file system description: the Name tag, the file system
identifier, and SizeInBytes.Value. -/
structure EfsFS where
  name : String
  fileSystemId : String
  sizeInBytes : Nat
deriving DecidableEq, Repr

/-- An AWS EFS mount target. -/
structure EfsMountTarget where
  fileSystemId : String
  subnetId : String
  ipAddress : String
deriving DecidableEq, Repr

/-- Errors of the efs driver: wrapped AWS failures, the types
not-found error, and the plain missing-volume-ID error created with
errors.New inside getVolumeAttachments. -/
inductive EfsErr where
  | backend (msg : String)
  | notFound
  | missingVolumeID
deriving DecidableEq, Repr

/-- AWS calls the driver can make. -/
inductive EfsCall where
  | describeFileSystems (volumeID : String)
  | createFileSystem (creationToken : String)
  | createTags (fsid fullName : String)
  | describeMountTargets (volumeID : String)
deriving DecidableEq, Repr

/-- Response oracles for the AWS EFS operations used here. -/
structure EfsBackend where
  describeFileSystems : String → Except String (List EfsFS)
  createFileSystem : String → Except String EfsFS
  createTags : String → String → Except String Unit
  describeMountTargets : String → Except String (List EfsMountTarget)

/-- getFullVolumeName: the configured tag, the slash delimiter, then
the callers name. -/
def getFullVolumeName (tag name : String) : String := tag ++ "/" ++ name

/-- getPrintableName: strings.TrimLeft of the name with cutset tag
plus slash.  TrimLeft removes leading characters drawn from the cutset
as a character set, not the prefix string once. -/
def getPrintableName (tag name : String) : String :=
  stringsTrimLeft name (tag ++ "/")

/-- getVolumeAttachments: reject an empty volume ID with the plain
missing-ID error, describe the mount targets, and derive one
attachment per target: with a local device map the device string is
the target IP plus colon slash and the status follows the map lookup;
with no map the device string stays empty and the status is Exported. -/
def getVolumeAttachments (b : EfsBackend) (volumeID : String) (ld : LocalDeviceMap) :
    Except EfsErr (List VolumeAttachment) × List EfsCall :=
  if volumeID = "" then (.error .missingVolumeID, [])
  else
    match b.describeMountTargets volumeID with
    | .error e => (.error (.backend e), [.describeMountTargets volumeID])
    | .ok targets =>
      (.ok (targets.map (fun t =>
        match ld with
        | some m =>
          let dev := t.ipAddress ++ ":" ++ "/"
          ⟨t.fileSystemId, t.subnetId, dev,
            if (m.lookup dev).isSome then "Exported and Mounted"
            else "Exported and Unmounted"⟩
        | none => ⟨t.fileSystemId, t.subnetId, "", "Exported"⟩)),
       [.describeMountTargets volumeID])

/-- VolumeInspect: describe the file systems for the given ID with no
guard on an empty ID, fail with the backend error or, on an empty
response list, with the not-found error; otherwise assemble the volume
from the first description, attaching only when requested and only
when the attachment list is non-empty. -/
def VolumeInspect (b : EfsBackend) (tag volumeID : String) (attachments : Bool)
    (ld : LocalDeviceMap) : Except EfsErr Volume × List EfsCall :=
  match b.describeFileSystems volumeID with
  | .error e => (.error (.backend e), [.describeFileSystems volumeID])
  | .ok [] => (.error .notFound, [.describeFileSystems volumeID])
  | .ok (fs :: _) =>
    let vol : Volume := ⟨getPrintableName tag fs.name, fs.fileSystemId, fs.sizeInBytes, none⟩
    if attachments then
      match getVolumeAttachments b fs.fileSystemId ld with
      | (.error e, calls) => (.error e, .describeFileSystems volumeID :: calls)
      | (.ok atts, calls) =>
        ((if atts.length > 0 then .ok ⟨vol.name, vol.id, vol.size, some atts⟩ else .ok vol),
         .describeFileSystems volumeID :: calls)
    else (.ok vol, [.describeFileSystems volumeID])

/-- VolumeCreate: create the file system with the callers name as
creation token (no guard on an empty name), tag it with the full
volume name, then read the result back through VolumeInspect with
attachments off. -/
def VolumeCreate (b : EfsBackend) (tag name : String) :
    Except EfsErr Volume × List EfsCall :=
  match b.createFileSystem name with
  | .error e => (.error (.backend e), [.createFileSystem name])
  | .ok fs =>
    match b.createTags fs.fileSystemId (getFullVolumeName tag name) with
    | .error e =>
      (.error (.backend e),
       [.createFileSystem name, .createTags fs.fileSystemId (getFullVolumeName tag name)])
    | .ok _ =>
      let p := VolumeInspect b tag fs.fileSystemId false none
      (p.1, .createFileSystem name :: .createTags fs.fileSystemId (getFullVolumeName tag name) :: p.2)

/-- Snapshots returns a nil slice and a nil error. -/
def Snapshots : Except EfsErr (Option (List Snapshot)) := .ok none

/-- SnapshotInspect returns a nil pointer and a nil error. -/
def SnapshotInspect (snapshotID : String) : Except EfsErr (Option Snapshot) := .ok none

/-- SnapshotCopy returns a nil pointer and a nil error. -/
def SnapshotCopy (snapshotID snapshotName destinationID : String) :
    Except EfsErr (Option Snapshot) := .ok none

/-- SnapshotRemove returns a nil error. -/
def SnapshotRemove (snapshotID : String) : Except EfsErr Unit := .ok ()

/-- VolumeCreateFromSnapshot returns the not-implemented sentinel;
modelled with the shared sentinel as a backend message for the efs
error type. -/
inductive EfsNotImpl where
  | notImplemented
deriving DecidableEq, Repr

/-- VolumeCreateFromSnapshot returns the not-implemented sentinel. -/
def VolumeCreateFromSnapshot (snapshotID volumeName : String) :
    Except EfsNotImpl Volume := .error .notImplemented

/-- VolumeCopy returns the not-implemented sentinel. -/
def VolumeCopy (volumeID volumeName : String) : Except EfsNotImpl Volume :=
  .error .notImplemented

/-- VolumeSnapshot returns the not-implemented sentinel. -/
def VolumeSnapshot (volumeID snapshotName : String) : Except EfsNotImpl Snapshot :=
  .error .notImplemented

/-- A stub backend: listing any ID yields no file systems, creation
succeeds with identifier fs-1, tagging succeeds, and no mount targets
exist.  Used to exhibit the calls the driver makes on empty input. -/
def stubBackend : EfsBackend :=
  ⟨fun _ => .ok [], fun _ => .ok ⟨"", "fs-1", 0⟩, fun _ _ => .ok (), fun _ => .ok []⟩

/-- A backend for the name round-trip run: creating the volume named
apple under tag tag yields file system fs-1 whose Name tag holds the
full volume name tag/apple, as CreateTags wrote it. -/
def appleBackend : EfsBackend :=
  ⟨fun fsid => if fsid = "fs-1" then .ok [⟨"tag/apple", "fs-1", 7⟩] else .ok [],
   fun _ => .ok ⟨"", "fs-1", 0⟩, fun _ _ => .ok (), fun _ => .ok []⟩

end Efs

namespace Gfs

/-!
The glusterfs storage driver (package storage, glusterfs variant):
only its attachment-status derivation is under study.
-/

/-- Errors of the glusterfs driver. -/
inductive GfsErr where
  | missingVolumeID
deriving DecidableEq, Repr

/-- fmt.Sprintf of a format string containing exactly one percent-s
verb and no other verb (the Init check of this driver enforces exactly
one percent-s in the connection-string formatter): the verb is
replaced by the argument. -/
def sprintfOne (fmtStr arg : List Char) : List Char :=
  match fmtStr with
  | '%' :: 's' :: rest => arg ++ rest
  | c :: rest => c :: sprintfOne rest arg
  | [] => []

/-- String version of sprintfOne. -/
def sprintfOneS (fmtStr arg : String) : String :=
  String.mk (sprintfOne fmtStr.toList arg.toList)

/-- getVolumeAttachments: reject an empty volume ID, build the device
string by formatting the volume ID through the configured
connection-string formatter, and derive the status from the local
device map exactly as the objectivefs driver does.  The single
attachments instance ID is the fixed mock ID. -/
def getVolumeAttachments (fmtStr volumeID : String) (ld : LocalDeviceMap) :
    Except GfsErr (List VolumeAttachment) :=
  if volumeID = "" then .error .missingVolumeID
  else
    let dev := sprintfOneS fmtStr volumeID
    let status :=
      match ld with
      | some m =>
        if (m.lookup dev).isSome then "Exported and Mounted"
        else "Exported and Unmounted"
      | none => "Exported"
    .ok [⟨volumeID, "an-unused-id", dev, status⟩]

end Gfs

/-- A sample live mount-table row whose mount point is /mnt, used to
instantiate the mount-verification statements. -/
def sampleMountRow : MountTable.MountInfo :=
  ⟨0, 0, 0, 0, "/", "/mnt", "rw", "", "objectivefs", "s3://bucket", "rw"⟩

/-!
Theorems.  Each claim of the specification is settled below; helper
lemmas come first.
-/

namespace MountTable

theorem parseLine_error_of_bad (l : String)
    (h : sscanfMountPre l.toList = none ∨ (fieldsOf (trailerOf l.toList)).length < 3) :
    ∃ e, parseLine l = .error e := by
  rcases h with h | h
  · have h2 : sscanfMountPre l.data = none := h
    exact ⟨"Scanning failed: " ++ l, by simp [parseLine, h2]⟩
  · have h2 : (fieldsOf (trailerOf l.data)).length < 3 := h
    cases hs : sscanfMountPre l.data with
    | none => exact ⟨"Scanning failed: " ++ l, by simp [parseLine, hs]⟩
    | some v =>
      obtain ⟨a, b, c, d, e2, f, g, o⟩ := v
      exact ⟨"Error found less than 3 fields post separator in " ++ l,
        by simp [parseLine, hs, h2]⟩

theorem parseInfoFile_error_of_mem (rows : List String) (l : String)
    (hl : l ∈ rows) (he : ∃ e, parseLine l = .error e) :
    ∃ e, parseInfoFile rows = .error e := by
  induction rows with
  | nil => cases hl
  | cons r rs ih =>
    cases hl with
    | head =>
      obtain ⟨e, he⟩ := he
      exact ⟨e, by simp [parseInfoFile, he]⟩
    | tail _ hmem =>
      cases hpr : parseLine r with
      | error e => exact ⟨e, by simp [parseInfoFile, hpr]⟩
      | ok m =>
        obtain ⟨e, hpe⟩ := ih hmem
        exact ⟨e, by simp [parseInfoFile, hpr, hpe]⟩

end MountTable

/-- C7.  Mount-table parsing is all-or-nothing: the example row parses
to the stated MountInfo (fstype ext3, source /dev/root, mount point
/mnt2, optional master:1), and any input containing a row whose
eight-field leader does not scan, or whose trailer after the
blank-dash-blank separator has fewer than three fields, makes the whole
parse fail rather than skipping the row. -/
theorem mount_table_all_or_nothing :
    (MountTable.parseInfoFile
      ["36 35 98:0 /mnt1 /mnt2 rw,noatime master:1 - ext3 /dev/root rw,errors=continue"]
      = .ok [⟨36, 35, 98, 0, "/mnt1", "/mnt2", "rw,noatime", "master:1",
              "ext3", "/dev/root", "rw,errors=continue"⟩])
    ∧ (∀ (rows : List String) (l : String), l ∈ rows →
        MountTable.sscanfMountPre l.toList = none ∨
          (MountTable.fieldsOf (MountTable.trailerOf l.toList)).length < 3 →
        ∃ e, MountTable.parseInfoFile rows = .error e) := by
  constructor
  · rfl
  · intro rows l hmem hbad
    exact MountTable.parseInfoFile_error_of_mem rows l hmem
      (MountTable.parseLine_error_of_bad l hbad)

/-- Witness for C7: a table whose second row has only two fields after
the separator fails as a whole, although its first row is well formed. -/
theorem mount_table_all_or_nothing_witness :
    ∃ e, MountTable.parseInfoFile
      ["36 35 98:0 /mnt1 /mnt2 rw,noatime master:1 - ext3 /dev/root rw,errors=continue",
       "36 35 98:0 /mnt1 /mnt2 rw,noatime master:1 - ext3 /dev/root"]
      = .error e :=
  mount_table_all_or_nothing.2 _
    "36 35 98:0 /mnt1 /mnt2 rw,noatime master:1 - ext3 /dev/root"
    (by simp) (Or.inr (by decide))

/-- C4 counterexample.  Not all snapshot operations fail with the
not-implemented sentinel: in the objectivefs driver Snapshots,
SnapshotInspect, SnapshotCopy and SnapshotRemove return a nil result
with a nil error, which is an empty success. -/
theorem snapshot_empty_success_counterexample :
    Ofs.Snapshots = .ok none ∧
    Ofs.SnapshotInspect "snap-1" = .ok none ∧
    Ofs.SnapshotCopy "snap-1" "copy-1" "dest-1" = .ok none ∧
    Ofs.SnapshotRemove "snap-1" = .ok () ∧
    Ofs.Snapshots ≠ .error .notImplemented := by
  refine ⟨rfl, rfl, rfl, rfl, ?_⟩
  intro h
  exact Except.noConfusion h

/-- C4 amended.  In the objectivefs and efs drivers the three
volume-level snapshot operations (VolumeCreateFromSnapshot, VolumeCopy,
VolumeSnapshot) fail with the distinct not-implemented sentinel, while
the four snapshot-level operations (Snapshots, SnapshotInspect,
SnapshotCopy, SnapshotRemove) return a nil result with a nil error. -/
theorem snapshot_ops_amended : ∀ a b c : String,
    Ofs.VolumeCreateFromSnapshot a b = .error .notImplemented ∧
    Ofs.VolumeCopy a b = .error .notImplemented ∧
    Ofs.VolumeSnapshot a b = .error .notImplemented ∧
    Ofs.Snapshots = .ok none ∧
    Ofs.SnapshotInspect a = .ok none ∧
    Ofs.SnapshotCopy a b c = .ok none ∧
    Ofs.SnapshotRemove a = .ok () ∧
    Efs.VolumeCreateFromSnapshot a b = .error .notImplemented ∧
    Efs.VolumeCopy a b = .error .notImplemented ∧
    Efs.VolumeSnapshot a b = .error .notImplemented ∧
    Efs.Snapshots = .ok none ∧
    Efs.SnapshotInspect a = .ok none ∧
    Efs.SnapshotCopy a b c = .ok none ∧
    Efs.SnapshotRemove a = .ok () :=
  fun _ _ _ =>
    ⟨rfl, rfl, rfl, rfl, rfl, rfl, rfl, rfl, rfl, rfl, rfl, rfl, rfl, rfl⟩

/-- C10.  The efs name mangling does not round-trip: getPrintableName
uses a character-set trim (strings.TrimLeft) rather than a prefix trim,
so for tag tag and name apple the full volume name tag/apple trims to
pple, and a VolumeCreate of apple reads back a volume named pple. -/
theorem efs_name_mangling_not_roundtrip :
    Efs.getFullVolumeName "tag" "apple" = "tag/apple" ∧
    Efs.getPrintableName "tag" (Efs.getFullVolumeName "tag" "apple") = "pple" ∧
    Efs.getPrintableName "tag" (Efs.getFullVolumeName "tag" "apple") ≠ "apple" ∧
    (Efs.VolumeCreate Efs.appleBackend "tag" "apple").1 = .ok ⟨"pple", "fs-1", 7, none⟩ := by
  refine ⟨rfl, rfl, ?_, rfl⟩
  decide

namespace Ofs

theorem drainLoop_none (b : S3Backend) (bucket : String)
    (hb : ∀ n, 1 ≤ n → ∃ p, b.listObjects bucket n = .ok p) :
    ∀ (fuel : Nat) (acc : List String) (idx : Nat), 1 ≤ idx →
      drainLoop b bucket true acc idx fuel = none := by
  intro fuel
  induction fuel with
  | zero => intro acc idx _; rfl
  | succ f ih =>
    intro acc idx hidx
    obtain ⟨p, hp⟩ := hb idx hidx
    simp only [drainLoop, if_true, hp]
    exact ih (acc ++ p.contents) (idx + 1) (by omega)

end Ofs

/-- C5.  The page-draining loop of the objectivefs VolumeRemove does
not terminate whenever the first ListObjects response is successful
and marked truncated and the repeated ListObjects calls keep
succeeding: the loop condition reads the response bound outside the
loop (the one received inside is a new, shadowed variable) and the
request is never advanced, so no amount of fuel ever completes the
removal sequence. -/
theorem volume_remove_truncated_diverges :
    ∀ (b : Ofs.S3Backend) (vid : String) (fuel : Nat) (first : Ofs.S3Page),
      b.listObjects vid 0 = .ok first → first.isTruncated = true →
      (∀ n, 1 ≤ n → ∃ p, b.listObjects vid n = .ok p) →
      Ofs.VolumeRemove b vid fuel = none := by
  intro b vid fuel first h0 htr hb
  simp only [Ofs.VolumeRemove, h0, htr]
  rw [Ofs.drainLoop_none b vid hb fuel first.contents 1 (by omega)]

/-- Witness for C5: against a backend whose listing always succeeds
with the truncated flag set, VolumeRemove exhausts any fuel. -/
theorem volume_remove_truncated_diverges_witness :
    Ofs.VolumeRemove Ofs.truncatedBackend "vol-1" 9 = none :=
  volume_remove_truncated_diverges Ofs.truncatedBackend "vol-1" 9
    ⟨["key-0"], true⟩ rfl rfl (fun _ _ => ⟨⟨["key-0"], true⟩, rfl⟩)

namespace LinuxOS

theorem all_congr_mem {α : Type} (l : List α) (f g : α → Bool)
    (h : ∀ x ∈ l, f x = g x) : l.all f = l.all g := by
  induction l with
  | nil => rfl
  | cons a t ih =>
    simp only [List.all_cons]
    rw [h a (List.mem_cons_self a t), ih (fun x hx => h x (List.mem_cons_of_mem a hx))]

theorem find_congr_mem {α : Type} (l : List α) (f g : α → Bool)
    (h : ∀ x ∈ l, f x = g x) : l.find? f = l.find? g := by
  induction l with
  | nil => rfl
  | cons a t ih =>
    simp only [List.find?_cons]
    rw [h a (List.mem_cons_self a t), ih (fun x hx => h x (List.mem_cons_of_mem a hx))]

theorem magicAt_window (d1 d2 : Device) (p : ProbeData)
    (hp : p.offset + p.magic.length ≤ maxLen)
    (hb : ∀ i, i < maxLen → d1.byte i = d2.byte i) :
    magicAt d1 p = magicAt d2 p := by
  unfold magicAt
  apply all_congr_mem
  intro i hi
  rw [List.mem_range] at hi
  rw [hb (p.offset + i) (by omega)]

end LinuxOS

/-- C8.  The probe reads one fixed window whose size is the maximum of
offset plus magic length over the signature table (65608 bytes); its
outcome depends only on the bytes inside that window; a device carrying
the XFSB literal at offset 0 is identified as xfs; and a device whose
window matches no registered signature yields the distinct
unknown-file-system outcome rather than a generic error. -/
theorem probe_window_and_signatures :
    LinuxOS.maxLen = 65608
    ∧ (∀ d1 d2 : LinuxOS.Device, d1.len = d2.len →
        (∀ i, i < LinuxOS.maxLen → d1.byte i = d2.byte i) →
        LinuxOS.probeFsType d1 = LinuxOS.probeFsType d2)
    ∧ LinuxOS.probeFsType LinuxOS.xfsDevice = .ok "xfs"
    ∧ (∀ d : LinuxOS.Device, LinuxOS.maxLen ≤ d.len →
        (∀ p ∈ LinuxOS.probes, LinuxOS.magicAt d p = false) →
        LinuxOS.probeFsType d = .error .unknownFileSystem) := by
  refine ⟨rfl, ?_, rfl, ?_⟩
  · intro d1 d2 hlen hb
    have hfind : LinuxOS.probes.find? (LinuxOS.magicAt d1)
        = LinuxOS.probes.find? (LinuxOS.magicAt d2) := by
      apply LinuxOS.find_congr_mem
      intro p hp
      apply LinuxOS.magicAt_window d1 d2 p _ hb
      fin_cases hp <;> decide
    simp only [LinuxOS.probeFsType, hlen, hfind]
  · intro d hlen hnone
    have hfind : LinuxOS.probes.find? (LinuxOS.magicAt d) = none :=
      List.find?_eq_none.mpr (fun p hp => by rw [hnone p hp]; simp)
    have hmin : min d.len LinuxOS.maxLen = LinuxOS.maxLen := Nat.min_eq_right hlen
    simp [LinuxOS.probeFsType, hmin, hfind]

/-- Witness for C8: the all-zero device of window size matches no
signature and probes to the unknown-file-system outcome. -/
theorem probe_window_and_signatures_witness :
    LinuxOS.probeFsType LinuxOS.zeroDevice = .error .unknownFileSystem :=
  probe_window_and_signatures.2.2.2 LinuxOS.zeroDevice (by decide) (by decide)

namespace LinuxOS

theorem probe_ok_ne_empty (dev : Device) (fs : String)
    (h : probeFsType dev = .ok fs) : fs ≠ "" := by
  simp only [probeFsType] at h
  split at h
  · exact Except.noConfusion h
  · split at h
    · rename_i p heq
      injection h with h2
      subst h2
      exact (by decide : ∀ q ∈ probes, q.fsName ≠ "") p (List.mem_of_find?_eq_some heq)
    · exact Except.noConfusion h

end LinuxOS

/-- C9.  When the probe detects an existing filesystem signature and
overwriteFS is false, Format spawns no creation subprocess and returns
success; when creation is attempted (no filesystem detected, or
overwriteFS true), a requested type outside the supported set (ext4,
xfs) fails with the unsupported-file-system error and spawns nothing. -/
theorem format_no_op_and_unsupported :
    (∀ (dev : LinuxOS.Device) (name : String) (opts : LinuxOS.DeviceFormatOpts)
        (cmdOK : List String → Bool) (fs : String),
        LinuxOS.probeFsType dev = .ok fs → opts.overwriteFS = false →
        LinuxOS.Format dev name opts cmdOK = (.ok (), []))
    ∧ (∀ (dev : LinuxOS.Device) (name : String) (opts : LinuxOS.DeviceFormatOpts)
        (cmdOK : List String → Bool),
        (LinuxOS.probeFsType dev = .error .unknownFileSystem ∨
          (∃ fs, LinuxOS.probeFsType dev = .ok fs ∧ opts.overwriteFS = true)) →
        opts.newFSType ≠ "ext4" → opts.newFSType ≠ "xfs" →
        LinuxOS.Format dev name opts cmdOK = (.error .unsupportedFileSystem, [])) := by
  constructor
  · intro dev name opts cmdOK fs hp hov
    have hne := LinuxOS.probe_ok_ne_empty dev fs hp
    have hb : (fs != "") = true := bne_iff_ne.mpr hne
    simp [LinuxOS.Format, hp, LinuxOS.formatCreate, hov, hb]
  · intro dev name opts cmdOK hcase h1 h2
    rcases hcase with hp | ⟨fs, hp, hov⟩
    · simp [LinuxOS.Format, hp, LinuxOS.formatCreate, h1, h2]
    · simp [LinuxOS.Format, hp, LinuxOS.formatCreate, hov, h1, h2]

/-- Witness for C9: formatting the xfs-signed device with ext4
requested and overwrite off is a successful no-op, and formatting the
signature-free device with the uncreatable type btrfs requested fails
with the unsupported-file-system error. -/
theorem format_no_op_and_unsupported_witness :
    LinuxOS.Format LinuxOS.xfsDevice "dev0" ⟨"ext4", false⟩ (fun _ => true) = (.ok (), [])
    ∧ LinuxOS.Format LinuxOS.zeroDevice "dev0" ⟨"btrfs", false⟩ (fun _ => true)
        = (.error .unsupportedFileSystem, []) :=
  ⟨format_no_op_and_unsupported.1 LinuxOS.xfsDevice "dev0" ⟨"ext4", false⟩
      (fun _ => true) "xfs" rfl rfl,
   format_no_op_and_unsupported.2 LinuxOS.zeroDevice "dev0" ⟨"btrfs", false⟩
      (fun _ => true) (Or.inl rfl) (by decide) (by decide)⟩

/-- C2.  For the objectivefs mount path: the spawned subprocess
receives the passphrase followed by exactly one newline on standard
input, carries no environment override and a fixed argument vector
independent of the passphrase (so the passphrase reaches neither
arguments nor environment), is placed in its own session (Setsid) with
no controlling terminal (Setctty false); and the call reports success
only when the re-queried live mount table shows the target mounted,
so a clean exit with the target absent from the table is still a
failure. -/
theorem objectivefs_mount_secure :
    (∀ p d t : String, LinuxOS.objectivefsMountCmd d t p =
      ⟨"mount", ["-t", "objectivefs", d, t], some (p ++ "\n"), none, true, false⟩)
    ∧ (∀ p1 p2 d t : String,
        (LinuxOS.objectivefsMountCmd d t p1).prog = (LinuxOS.objectivefsMountCmd d t p2).prog ∧
        (LinuxOS.objectivefsMountCmd d t p1).args = (LinuxOS.objectivefsMountCmd d t p2).args ∧
        (LinuxOS.objectivefsMountCmd d t p1).env = (LinuxOS.objectivefsMountCmd d t p2).env)
    ∧ (∀ (p d t : String) (runOK : Bool)
        (q : Except String (List MountTable.MountInfo)),
        (LinuxOS.objectivefsMount p d t runOK q).1 = .ok () →
        ∃ table, q = .ok table ∧ LinuxOS.mountedIn table t = true)
    ∧ (∀ (p d t : String) (table : List MountTable.MountInfo),
        p ≠ "" → LinuxOS.mountedIn table t = false →
        (LinuxOS.objectivefsMount p d t true (.ok table)).1 = .error .notMounted) := by
  refine ⟨fun _ _ _ => rfl, fun _ _ _ _ => ⟨rfl, rfl, rfl⟩, ?_, ?_⟩
  · intro p d t runOK q h
    by_cases hp : p = ""
    · simp [LinuxOS.objectivefsMount, hp] at h
    · cases runOK with
      | false => simp [LinuxOS.objectivefsMount, hp] at h
      | true =>
        cases q with
        | error e => simp [LinuxOS.objectivefsMount, hp] at h
        | ok table =>
          by_cases hm : LinuxOS.mountedIn table t = true
          · exact ⟨table, rfl, hm⟩
          · simp [LinuxOS.objectivefsMount, hp, hm] at h
  · intro p d t table hp hm
    simp [LinuxOS.objectivefsMount, hp, hm]

/-- Witness for C2: with a non-empty passphrase, a clean subprocess
exit and a table containing /mnt the call succeeds and the table does
show the target; and with the same clean exit but an empty table the
call fails although the exit code was zero. -/
theorem objectivefs_mount_secure_witness :
    (∃ table, (.ok [sampleMountRow] : Except String (List MountTable.MountInfo))
        = .ok table ∧ LinuxOS.mountedIn table "/mnt" = true)
    ∧ (LinuxOS.objectivefsMount "secret" "s3://bucket" "/mnt" true (.ok [])).1
        = .error .notMounted :=
  ⟨objectivefs_mount_secure.2.2.1 "secret" "s3://bucket" "/mnt" true
      (.ok [sampleMountRow]) rfl,
   objectivefs_mount_secure.2.2.2 "secret" "s3://bucket" "/mnt" []
      (by decide) rfl⟩

/-- C6.  Attachment status derivation, in the objectivefs driver
(device string is the s3:// scheme plus the volume ID) and the
glusterfs driver (device string is the volume ID formatted through the
configured connection-string formatter): key present in the local
device map gives Exported and Mounted, key absent gives Exported and
Unmounted, and no local device map gives Exported. -/
theorem attachment_status_derivation :
    ∀ (region vid fmtStr : String) (m : List (String × String)), vid ≠ "" →
      (((m.lookup ("s3://" ++ vid)).isSome = true →
        Ofs.getVolumeAttachments region vid (some m) =
          .ok [⟨vid, region, "s3://" ++ vid, "Exported and Mounted"⟩])
      ∧ ((m.lookup ("s3://" ++ vid)).isSome = false →
        Ofs.getVolumeAttachments region vid (some m) =
          .ok [⟨vid, region, "s3://" ++ vid, "Exported and Unmounted"⟩])
      ∧ Ofs.getVolumeAttachments region vid none =
          .ok [⟨vid, region, "s3://" ++ vid, "Exported"⟩])
      ∧ (((m.lookup (Gfs.sprintfOneS fmtStr vid)).isSome = true →
        Gfs.getVolumeAttachments fmtStr vid (some m) =
          .ok [⟨vid, "an-unused-id", Gfs.sprintfOneS fmtStr vid, "Exported and Mounted"⟩])
      ∧ ((m.lookup (Gfs.sprintfOneS fmtStr vid)).isSome = false →
        Gfs.getVolumeAttachments fmtStr vid (some m) =
          .ok [⟨vid, "an-unused-id", Gfs.sprintfOneS fmtStr vid, "Exported and Unmounted"⟩])
      ∧ Gfs.getVolumeAttachments fmtStr vid none =
          .ok [⟨vid, "an-unused-id", Gfs.sprintfOneS fmtStr vid, "Exported"⟩]) := by
  intro region vid fmtStr m hvid
  refine ⟨⟨fun h => ?_, fun h => ?_, ?_⟩, fun h => ?_, fun h => ?_, ?_⟩ <;>
    simp [Ofs.getVolumeAttachments, Gfs.getVolumeAttachments, hvid, *]

/-- Witness for C6: volume v with region r and formatter percent-s
.gluster, against a map holding the objectivefs device key but not the
glusterfs one. -/
theorem attachment_status_derivation_witness :
    Ofs.getVolumeAttachments "r" "v" (some [("s3://v", "/m1")]) =
      .ok [⟨"v", "r", "s3://v", "Exported and Mounted"⟩]
    ∧ Gfs.getVolumeAttachments "%s.gluster" "v" (some [("s3://v", "/m1")]) =
      .ok [⟨"v", "an-unused-id", "v.gluster", "Exported and Unmounted"⟩] :=
  ⟨(attachment_status_derivation "r" "v" "%s.gluster" [("s3://v", "/m1")]
      (by decide)).1.1 (by decide),
   (attachment_status_derivation "r" "v" "%s.gluster" [("s3://v", "/m1")]
      (by decide)).2.2.1 (by decide)⟩

/-- C3 counterexample.  The efs driver has no empty-input guards: a
VolumeInspect with the empty ID issues the DescribeFileSystems backend
call with the empty ID and (against a backend answering with an empty
list) fails with not-found, not with a missing-volume-ID error; a
VolumeCreate with the empty name issues CreateFileSystem, CreateTags
and the read-back DescribeFileSystems, never a missing-volume-name
error. -/
theorem efs_no_empty_guard_counterexample :
    (Efs.VolumeInspect Efs.stubBackend "tag" "" false none).2
      = [.describeFileSystems ""]
    ∧ (Efs.VolumeInspect Efs.stubBackend "tag" "" false none).1 = .error .notFound
    ∧ (Efs.VolumeCreate Efs.stubBackend "tag" "").2
      = [.createFileSystem "", .createTags "fs-1" "tag/", .describeFileSystems "fs-1"]
    ∧ (Efs.VolumeCreate Efs.stubBackend "tag" "").1 = .error .notFound :=
  ⟨rfl, rfl, rfl, rfl⟩

/-- C3 amended.  Only the objectivefs driver fails fast on empty
input: its VolumeInspect with the empty ID is the missing-volume-ID
error and its VolumeCreate with the empty name is the
missing-volume-name error, both before any backend call.  The efs
driver instead performs the backend call first on empty input: its
VolumeInspect begins with DescribeFileSystems of the empty ID and its
VolumeCreate begins with CreateFileSystem of the empty creation
token. -/
theorem empty_input_guards_amended :
    (∀ (region : String) (att : Bool) (ld : LocalDeviceMap),
      Ofs.VolumeInspect region "" att ld = .error .missingVolumeID)
    ∧ (∀ (region : String) (runOK : Bool),
      Ofs.VolumeCreate region "" runOK = (.error .missingVolumeName, []))
    ∧ (∀ (b : Efs.EfsBackend) (tag : String) (att : Bool) (ld : LocalDeviceMap),
      ∃ rest, (Efs.VolumeInspect b tag "" att ld).2 = .describeFileSystems "" :: rest)
    ∧ (∀ (b : Efs.EfsBackend) (tag : String),
      ∃ rest, (Efs.VolumeCreate b tag "").2 = .createFileSystem "" :: rest) := by
  refine ⟨?_, ?_, ?_, ?_⟩
  · intro region att ld
    simp [Ofs.VolumeInspect]
  · intro region runOK
    simp [Ofs.VolumeCreate]
  · intro b tag att ld
    cases hd : b.describeFileSystems "" with
    | error e => exact ⟨[], by simp [Efs.VolumeInspect, hd]⟩
    | ok fss =>
      cases fss with
      | nil => exact ⟨[], by simp [Efs.VolumeInspect, hd]⟩
      | cons fs rest2 =>
        cases att with
        | false => exact ⟨[], by simp [Efs.VolumeInspect, hd]⟩
        | true =>
          refine ⟨(Efs.getVolumeAttachments b fs.fileSystemId ld).2, ?_⟩
          cases hga : Efs.getVolumeAttachments b fs.fileSystemId ld with
          | mk r calls =>
            cases r with
            | error e => simp [Efs.VolumeInspect, hd, hga]
            | ok atts => simp [Efs.VolumeInspect, hd, hga]
  · intro b tag
    cases hc : b.createFileSystem "" with
    | error e => exact ⟨[], by simp [Efs.VolumeCreate, hc]⟩
    | ok fs =>
      cases ht : b.createTags fs.fileSystemId (Efs.getFullVolumeName tag "") with
      | error e =>
        exact ⟨[.createTags fs.fileSystemId (Efs.getFullVolumeName tag "")],
          by simp [Efs.VolumeCreate, hc, ht]⟩
      | ok u =>
        exact ⟨.createTags fs.fileSystemId (Efs.getFullVolumeName tag "")
            :: (Efs.VolumeInspect b tag fs.fileSystemId false none).2,
          by simp [Efs.VolumeCreate, hc, ht]⟩

/-- Witness for C3: the objectivefs guards and the efs first-call
shape at concrete inputs. -/
theorem empty_input_guards_amended_witness :
    Ofs.VolumeInspect "us-east-1" "" false none = .error .missingVolumeID
    ∧ Ofs.VolumeCreate "us-east-1" "" true = (.error .missingVolumeName, [])
    ∧ (∃ rest, (Efs.VolumeInspect Efs.stubBackend "tag" "" false none).2
        = .describeFileSystems "" :: rest) :=
  ⟨empty_input_guards_amended.1 "us-east-1" false none,
   empty_input_guards_amended.2.1 "us-east-1" true,
   empty_input_guards_amended.2.2.1 Efs.stubBackend "tag" false none⟩

namespace TaskQueue

theorem consume_append (l1 l2 : List Ev) :
    ∀ r, consume r (l1 ++ l2) = (consume r l1).bind (fun r2 => consume r2 l2) := by
  induction l1 with
  | nil => intro r; simp [consume]
  | cons e t ih =>
    intro r
    cases r with
    | none =>
      cases e with
      | start i => simp [consume, ih]
      | finish i => simp [consume]
    | some i =>
      cases e with
      | start j => simp [consume]
      | finish j =>
        by_cases h : i = j
        · simp [consume, h, ih]
        · simp [consume, h]

theorem reachable_consume (s : SvcState) (h : Reachable s) :
    consume none s.events = some s.running := by
  induction h with
  | refl => rfl
  | tail _ hstep ih =>
    cases hstep with
    | submit id hid => simpa using ih
    | recv id hmem hrun => simp [consume_append, ih, hrun, consume]
    | fin id hrun => simp [consume_append, ih, hrun, consume]

theorem consume_some_start (i : Nat) (l : List Ev) (r : Option Nat)
    (h : consume (some i) l = some r) : l = [] ∨ Ev.finish i ∈ l := by
  cases l with
  | nil => exact Or.inl rfl
  | cons e t =>
    cases e with
    | start j => exact absurd h (by simp [consume])
    | finish j =>
      by_cases hij : i = j
      · subst hij
        exact Or.inr (List.mem_cons_self _ _)
      · simp [consume, hij] at h

end TaskQueue

/-- C1 amended.  Tasks on one Service never execute overlapping: in
every reachable state of the queue model the event history is strictly
serialized, so between the starts of any two run functions the first
one has finished. -/
theorem task_queue_serialized :
    ∀ s : TaskQueue.SvcState, TaskQueue.Reachable s → TaskQueue.NoOverlap s.events := by
  intro s hs
  unfold TaskQueue.NoOverlap
  intro l1 i l2 j l3 hsplit
  have hc := TaskQueue.reachable_consume s hs
  rw [hsplit, TaskQueue.consume_append] at hc
  cases h1 : TaskQueue.consume none l1 with
  | none => rw [h1] at hc; simp at hc
  | some r1 =>
    rw [h1] at hc
    simp only [Option.some_bind] at hc
    cases r1 with
    | some k => simp [TaskQueue.consume] at hc
    | none =>
      simp only [TaskQueue.consume] at hc
      rw [TaskQueue.consume_append] at hc
      cases h2 : TaskQueue.consume (some i) l2 with
      | none => rw [h2] at hc; simp at hc
      | some r2 =>
        rw [h2] at hc
        simp only [Option.some_bind] at hc
        cases r2 with
        | some k => simp [TaskQueue.consume] at hc
        | none =>
          cases TaskQueue.consume_some_start i l2 none h2 with
          | inl hnil =>
            subst hnil
            simp [TaskQueue.consume] at h2
          | inr hmem => exact hmem

namespace TaskQueue

theorem reachable_raceS6 : Reachable raceS6 := by
  have h01 : Step initState raceS1 := Step.submit initState 1 (by simp [initState])
  have h12 : Step raceS1 raceS2 := Step.submit raceS1 2 (by simp [raceS1])
  have h23 : Step raceS2 raceS3 := Step.recv raceS2 2 (by simp [raceS2]) rfl
  have h34 : Step raceS3 raceS4 := Step.fin raceS3 2 rfl
  have h45 : Step raceS4 raceS5 := Step.recv raceS4 1 (by simp [raceS4]) rfl
  have h56 : Step raceS5 raceS6 := Step.fin raceS5 1 rfl
  exact Relation.ReflTransGen.head h01 (Relation.ReflTransGen.head h12
    (Relation.ReflTransGen.head h23 (Relation.ReflTransGen.head h34
      (Relation.ReflTransGen.head h45 (Relation.ReflTransGen.head h56
        Relation.ReflTransGen.refl)))))

end TaskQueue

/-- C1 counterexample.  The claim as stated (first-in-first-out order
plus no overlap for every reachable state) is false: a state is
reachable in which task 1 was submitted before task 2 but task 2
executed first, because TaskExecute hands the task to the unbuffered
queue on a freshly spawned goroutine and the two sender goroutines
race for the rendezvous. -/
theorem task_queue_fifo_refuted :
    ¬ (∀ s : TaskQueue.SvcState, TaskQueue.Reachable s →
        TaskQueue.FifoOrdered s ∧ TaskQueue.NoOverlap s.events) := by
  intro h
  have hf := (h TaskQueue.raceS6 TaskQueue.reachable_raceS6).1
  have hlt := hf 0 1 1 2 (by decide) rfl rfl (by decide) (by decide)
  exact absurd hlt (by decide)

/-- Witness for C1: the serialization theorem applied to the reachable
race state and the split of its history around the two start events;
the first started task (2) indeed finishes inside the gap. -/
theorem task_queue_serialized_witness :
    TaskQueue.Ev.finish 2 ∈ [TaskQueue.Ev.finish 2] :=
  task_queue_serialized TaskQueue.raceS6 TaskQueue.reachable_raceS6
    [] 2 [TaskQueue.Ev.finish 2] 1 [TaskQueue.Ev.finish 1] rfl
